import Mathlib

/-!
Verification development for the discord-verify service.

The definitions below are a shallow embedding of the Rust source:

* `src/state.rs` — `PendingVerification`, `VerificationComplete`,
  `SetupRolesSession` (validation, role tables, and the reconciler
  `save_and_create_roles` / `get_current_roles`), and `AppState`;
* `src/web/auth.rs` — the `verify_start` and `link_callback` handlers;
* `src/web/api.rs` — the `verify_status` handler;
* `src/bot/role_config.rs` — `RoleMode` and `GuildRoleConfig.load`;
* `src/bot/commands/verify.rs` — the `/verify` command `handle` and
  `complete_verification`;
* `src/bot/commands/setuproles.rs` — `handle_save_roles`.

The Redis store is modelled as an association list from string keys to
string values; external calls (Discord role create/delete/assign,
Keycloak lookups, channel and direct messages) are modelled with
explicit success/failure oracles, and every side effect performed by a
handler is recorded in the returned state so that ordering and frame
properties can be stated.
-/

namespace DiscordVerify

/-- The durable key-value store (Redis), as an association list.
Keys are the literal strings the source builds with `format!`. -/
abbrev Store := List (String × String)

/-- `redis.get key`: the value stored at `key`, if any. -/
def storeGet (s : Store) (k : String) : Option String :=
  (s.find? (fun p => p.1 == k)).map (·.2)

/-- `redis.set key v` (also `SETEX`, whose TTL lives in the external
store and is not consulted by any code path modelled here): the store
afterwards binds `k` to `v` and every other key to its old value. -/
def storeSet (s : Store) (k v : String) : Store :=
  (s.filter (fun p => p.1 != k)) ++ [(k, v)]

/-- `redis.del key`: remove every binding for `k`. -/
def storeDel (s : Store) (k : String) : Store :=
  s.filter (fun p => p.1 != k)

/-- Helper for `parseNat?`: fold the remaining digits into `acc`. -/
def parseNatAux : List Char → Nat → Option Nat
  | [], acc => some acc
  | c :: cs, acc =>
    if c.isDigit then parseNatAux cs (acc * 10 + (c.toNat - '0'.toNat))
    else Option.none

/-- Rust's `str::parse::<u64>` as used on stored role ids: all digits
and nonempty, otherwise no parse. -/
def parseNat? (s : String) : Option Nat :=
  match s.data with
  | [] => Option.none
  | l => parseNatAux l 0

/-- Helper for `splitColon`. -/
def splitColonAux : List Char → List Char → List String
  | [], acc => [String.mk acc.reverse]
  | c :: cs, acc =>
    if c = ':' then String.mk acc.reverse :: splitColonAux cs []
    else splitColonAux cs (c :: acc)

/-- Rust's `str::split(':')` as used on custom-role selections. -/
def splitColon (s : String) : List String := splitColonAux s.data []

/-- `PendingVerification` from `src/state.rs` (lines 9–15). -/
structure PendingVerification where
  discord_user_id : Nat
  discord_username : String
  guild_id : Nat
  created_at : Int
deriving DecidableEq, Repr

/-- `VerificationComplete` from `src/state.rs` (lines 17–22): the
completion event carried on the mpsc channel. -/
structure VerificationComplete where
  discord_user_id : Nat
  guild_id : Nat
  keycloak_user_id : String
deriving DecidableEq, Repr

/-- A federated identity as returned by the Keycloak admin API
(`identity_provider` and `user_id` fields used in `src/web/auth.rs`). -/
structure FederatedIdentity where
  identity_provider : Option String
  user_id : Option String
deriving DecidableEq, Repr

/-- The shared application state of `src/state.rs` (`AppState`),
together with logs of the externally visible effects: events sent on
`verification_tx`, `delete_federated_identity` calls made against
Keycloak, and `add_role` calls made against Discord. -/
structure AppStateM where
  redis : Store
  pending : List (String × PendingVerification)
  events : List VerificationComplete
  unlink_calls : List (String × String)
  add_role_calls : List (Nat × Nat)
deriving DecidableEq, Repr

/-- Lookup of a pending verification: exactly what `verify_start`,
`link_callback` and `verify_status` do — a read of the in-process
`pending_verifications` map and nothing else (no Redis read, and no
check of `created_at` against the 600 s TTL). -/
def lookupPending (s : AppStateM) (t : String) : Option PendingVerification :=
  (s.pending.find? (fun p => p.1 == t)).map (·.2)

/-- `HashMap::insert` on the pending map: replace any binding for the
token, keeping at most one entry per token. -/
def insertPending (m : List (String × PendingVerification)) (k : String)
    (v : PendingVerification) : List (String × PendingVerification) :=
  (m.filter (fun p => p.1 != k)) ++ [(k, v)]

/-- The two primitive effects of the matching ("linked") branch of the
web handlers: sending the completion event on `verification_tx`, and
removing the token from `pending_verifications`. -/
inductive WebOp where
  | emitEvent (e : VerificationComplete)
  | consumeToken (t : String)
deriving DecidableEq, Repr

/-- Apply one primitive effect to the application state. -/
def applyOp (s : AppStateM) : WebOp → AppStateM
  | .emitEvent e => { s with events := s.events ++ [e] }
  | .consumeToken t => { s with pending := s.pending.filter (fun p => p.1 != t) }

/-- Apply a sequence of effects in order. -/
def applyOps (s : AppStateM) (ops : List WebOp) : AppStateM :=
  ops.foldl applyOp s

/-- The completion event built at `src/web/auth.rs:78` and `:228`. -/
def mkCompletion (v : PendingVerification) (kc : String) : VerificationComplete :=
  ⟨v.discord_user_id, v.guild_id, kc⟩

/-- The effect sequence of the matching branch, in source order:
`verify_start` sends the event at `src/web/auth.rs:84` and removes the
token at lines 89–93; `link_callback` sends at line 234 and removes at
lines 240–244.  In both handlers the send comes first. -/
def linked_branch_trace (v : PendingVerification) (token kc : String) : List WebOp :=
  [WebOp.emitEvent (mkCompletion v kc), WebOp.consumeToken token]

/-- Find the Discord federated identity (`src/web/auth.rs:68–70`). -/
def findDiscordIdentity (ids : List FederatedIdentity) : Option FederatedIdentity :=
  ids.find? (fun i => i.identity_provider == some "discord")

/-- Outcomes of `verify_start` (`src/web/auth.rs`): the redirect or
error response returned to the browser. -/
inductive VerifyStartOutcome where
  | expired
  | linkedRedirect
  | alreadyLinkedElsewhere
  | startLinkFlow
deriving DecidableEq, Repr

/-- `verify_start` (`src/web/auth.rs:17–131`), with the Keycloak
federated-identity answer passed as `ids`.  The branch structure,
the comparison of the federated `user_id` with the pending record's
Discord id, and the order of the send and the removal in the matching
branch mirror the source. -/
def verify_start (s : AppStateM) (token kc : String)
    (ids : List FederatedIdentity) : AppStateM × VerifyStartOutcome :=
  match lookupPending s token with
  | Option.none => (s, .expired)
  | some v =>
    match findDiscordIdentity ids with
    | some d =>
      if d.user_id == some (toString v.discord_user_id) then
        (applyOps s (linked_branch_trace v token kc), .linkedRedirect)
      else
        (s, .alreadyLinkedElsewhere)
    | Option.none => (s, .startLinkFlow)

/-- Outcomes of `link_callback` (`src/web/auth.rs:134–247`). -/
inductive LinkCallbackOutcome where
  | expired
  | notLinked
  | wrongIdentity
  | linkedRedirect
deriving DecidableEq, Repr

/-- `link_callback` (`src/web/auth.rs:134–247`): the session-held
token is `sessionToken`; on a Discord identity bound to a different
user id the handler calls `delete_federated_identity` and returns the
wrong-account error; on a match it sends the event and then removes
the token, in that order. -/
def link_callback (s : AppStateM) (sessionToken : Option String) (kc : String)
    (ids : List FederatedIdentity) : AppStateM × LinkCallbackOutcome :=
  match sessionToken with
  | Option.none => (s, .expired)
  | some token =>
    match lookupPending s token with
    | Option.none => (s, .expired)
    | some v =>
      match findDiscordIdentity ids with
      | Option.none => (s, .notLinked)
      | some d =>
        if d.user_id == some (toString v.discord_user_id) then
          (applyOps s (linked_branch_trace v token kc), .linkedRedirect)
        else
          ({ s with unlink_calls := s.unlink_calls ++ [(kc, "discord")] },
           .wrongIdentity)

/-- The token-consumption step performed by the web handlers
(`src/web/auth.rs:88–93` and `:239–244`): a removal from the
in-process `pending_verifications` map.  No other store is touched. -/
def consumePending (s : AppStateM) (t : String) : AppStateM :=
  applyOp s (WebOp.consumeToken t)

/-- `verify_status` (`src/web/api.rs:17–37`): reports `"pending"` with
the stored username when the in-process map holds the token, and
`"not_found"` otherwise. -/
def verify_status (s : AppStateM) (t : String) : String × Option String :=
  match lookupPending s t with
  | some v => ("pending", some v.discord_username)
  | Option.none => ("not_found", Option.none)

/-- `RoleMode` from `src/bot/role_config.rs` (lines 6–12). -/
inductive RoleMode where
  | none
  | levels
  | classes
  | custom
deriving DecidableEq, Repr

/-- `RoleMode::from_str` (`src/bot/role_config.rs:15–22`). -/
def RoleMode.from_str (s : String) : RoleMode :=
  if s == "levels" then .levels
  else if s == "classes" then .classes
  else if s == "custom" then .custom
  else .none

/-- `should_assign_level_roles` (`src/bot/role_config.rs:132–134`). -/
def RoleMode.should_assign_level_roles (m : RoleMode) : Bool :=
  m == .levels || m == .custom

/-- `should_assign_class_roles` (`src/bot/role_config.rs:137–139`). -/
def RoleMode.should_assign_class_roles (m : RoleMode) : Bool :=
  m == .classes || m == .custom

/-- The two level names iterated at `src/bot/role_config.rs:64`. -/
def levelNames : List String := ["Undergrad", "Graduate"]

/-- The seven class names iterated at `src/bot/role_config.rs:81–89`. -/
def classNames : List String :=
  ["First-Year", "Sophomore", "Junior", "Senior", "Fifth-Year Senior",
   "Masters", "Doctoral"]

/-- `GuildRoleConfig` from `src/bot/role_config.rs` (lines 36–42). -/
structure GuildRoleConfig where
  guild_id : Nat
  verified_role : Option Nat
  mode : RoleMode
  level_roles : List (String × Nat)
  class_roles : List (String × Nat)
deriving DecidableEq, Repr

/-- The per-category loading loop of `GuildRoleConfig::load`
(`src/bot/role_config.rs:63–102`): read
`guild:<g>:role:<category>:<name>`, parse it as an id, and keep the
entry only when the id is in the guild's live role list. -/
def loadRoleList (store : Store) (g : Nat) (live : List Nat)
    (category : String) (names : List String) : List (String × Nat) :=
  names.filterMap (fun name =>
    match (storeGet store
        ("guild:" ++ toString g ++ ":role:" ++ category ++ ":" ++ name)).bind
        parseNat? with
    | some rid => if live.contains rid then some (name, rid) else Option.none
    | Option.none => Option.none)

/-- `GuildRoleConfig::load` (`src/bot/role_config.rs:46–111`): reads
the verified role and mode, then the level and class role ids; the
level and class ids are checked against the live role list `live`,
while the verified role id is parsed and returned without such a
check.  The store is only read, never written. -/
def GuildRoleConfig.load (store : Store) (g : Nat) (live : List Nat) :
    GuildRoleConfig :=
  let verified :=
    (storeGet store ("guild:" ++ toString g ++ ":role:verified")).bind
      parseNat?
  let mode := RoleMode.from_str
    ((storeGet store ("guild:" ++ toString g ++ ":role_mode")).getD "none")
  ⟨g, verified, mode,
   loadRoleList store g live "level" levelNames,
   loadRoleList store g live "class" classNames⟩

/-- `get_verified_role` (`src/bot/role_config.rs:114–119`). -/
def GuildRoleConfig.get_verified_role (c : GuildRoleConfig) :
    Except String Nat :=
  match c.verified_role with
  | some r => .ok r
  | Option.none => .error "No verified role configured for this server."

/-- `get_level_role` (`src/bot/role_config.rs:122–124`). -/
def GuildRoleConfig.get_level_role (c : GuildRoleConfig) (level : String) :
    Option Nat :=
  (c.level_roles.find? (fun p => p.1 == level)).map (·.2)

/-- `get_class_role` (`src/bot/role_config.rs:127–129`). -/
def GuildRoleConfig.get_class_role (c : GuildRoleConfig) (cl : String) :
    Option Nat :=
  (c.class_roles.find? (fun p => p.1 == cl)).map (·.2)

/-- The forward identity-mapping key `discord:<id>:keycloak`. -/
def fwdKey (d : Nat) : String := "discord:" ++ toString d ++ ":keycloak"

/-- The reverse identity-mapping key `keycloak:<id>:discord`. -/
def revKey (kc : String) : String := "keycloak:" ++ kc ++ ":discord"

/-- The timestamp key `discord:<id>:verified_at`. -/
def vatKey (d : Nat) : String := "discord:" ++ toString d ++ ":verified_at"

/-- The three unconditional `SET`s of `complete_verification`
(`src/bot/commands/verify.rs:164–184`), in source order: verified-at
timestamp, then `discord:<id>:keycloak`, then `keycloak:<id>:discord`.
The source performs no read and no conflict check before writing. -/
def persistLink (store : Store) (d : Nat) (kc : String) (ts : Int) : Store :=
  let s1 := storeSet store (vatKey d) (toString ts)
  let s2 := storeSet s1 (fwdKey d) kc
  storeSet s2 (revKey kc) (toString d)

deriving instance DecidableEq for Except

/-- Success/failure oracles for the external calls made by
`complete_verification` (`src/bot/commands/verify.rs:109–231`), in the
order the source makes them. -/
structure CVOracles where
  member_fetch_fails : Bool
  add_verified_fails : Bool
  get_user_fails : Bool
  add_level_fails : Bool
  add_class_fails : Bool
  send_log_fails : Bool
  dm_fails : Bool
deriving DecidableEq, Repr

/-- The guild configuration consumed by `complete_verification`,
as produced by `load_guild_config`.  The role fields are those of
`GuildRoleConfig` (`src/bot/role_config.rs`); the snapshot's
`load_guild_config`/`get_log_channel` helper is not present under
`src/`, so the log channel is carried as the optional
operator-configured channel the spec describes (§4.3). -/
structure CVConfig where
  verified_role : Option Nat
  mode : RoleMode
  level_roles : List (String × Nat)
  class_roles : List (String × Nat)
  log_channel : Option Nat
deriving DecidableEq, Repr

/-- Result of `complete_verification`: the final store, the Discord
roles added, whether the log-channel message and the direct message
were attempted, and the function's `Result`. -/
structure CVResult where
  store : Store
  added_roles : List Nat
  log_attempted : Bool
  dm_attempted : Bool
  result : Except String Unit
deriving DecidableEq, Repr

/-- `complete_verification` (`src/bot/commands/verify.rs:109–231`).
Control flow mirrors the source: member fetch, verified-role
assignment and the Keycloak user fetch propagate failure with `?`;
level- and class-role assignment failures are caught and logged
(lines 143–147 and 156–160); the three mapping `SET`s are
unconditional; the log-channel send failure is caught and logged
(lines 206–219); the direct message uses `?` (lines 222–228), so its
failure propagates after the mappings were already persisted. -/
def complete_verification (cfg : CVConfig)
    (attrs : List (String × List String)) (store : Store) (o : CVOracles)
    (d : Nat) (kc : String) (ts : Int) : CVResult :=
  if o.member_fetch_fails then ⟨store, [], false, false, .error "member"⟩ else
  match cfg.verified_role with
  | Option.none =>
      ⟨store, [], false, false, .error "No verified role configured for this server."⟩
  | some vr =>
    if o.add_verified_fails then ⟨store, [], false, false, .error "add_role"⟩ else
    if o.get_user_fails then ⟨store, [vr], false, false, .error "get_user"⟩ else
    let levelAdd :=
      if cfg.mode.should_assign_level_roles then
        match (attrs.find? (fun p => p.1 == "level")).bind (fun p => p.2.head?) with
        | some lv =>
          match (cfg.level_roles.find? (fun p => p.1 == lv)).map (·.2) with
          | some r => if o.add_level_fails then [] else [r]
          | Option.none => []
        | Option.none => []
      else []
    let classAdd :=
      if cfg.mode.should_assign_class_roles then
        match (attrs.find? (fun p => p.1 == "class")).bind (fun p => p.2.head?) with
        | some cv =>
          match (cfg.class_roles.find? (fun p => p.1 == cv)).map (·.2) with
          | some r => if o.add_class_fails then [] else [r]
          | Option.none => []
        | Option.none => []
      else []
    let added := vr :: (levelAdd ++ classAdd)
    let store1 := persistLink store d kc ts
    let logA := cfg.log_channel.isSome
    if o.dm_fails then ⟨store1, added, logA, true, .error "dm"⟩
    else ⟨store1, added, logA, true, .ok ()⟩

/-- Outcomes of the `/verify` command handler
(`src/bot/commands/verify.rs:19–105`). -/
inductive HandleOutcome where
  | guildOnly
  | errorNoVerifiedRole
  | alreadyVerified
  | linkSent (token : String)
deriving DecidableEq, Repr

/-- Stand-in for the `serde_json` serialisation of a
`PendingVerification` stored under `verify:<token>`. -/
def serializePending (v : PendingVerification) : String :=
  toString v.discord_user_id ++ ":" ++ v.discord_username ++ ":" ++
    toString v.guild_id ++ ":" ++ toString v.created_at

/-- The `/verify` command `handle` (`src/bot/commands/verify.rs:19–105`)
for an in-guild invocation.  If `discord:<id>:keycloak` is present
the handler loads the guild config, assigns only the verified role and
returns (lines 40–59); otherwise it inserts the fresh token into the
in-process map and `SETEX`es `verify:<token>` into Redis (lines
61–88).  `freshToken` stands for the generated UUID and `now` for
`Utc::now().timestamp()`. -/
def verify_handle (s : AppStateM) (userId : Nat) (username : String)
    (gid : Nat) (live : List Nat) (freshToken : String) (now : Int) :
    AppStateM × HandleOutcome :=
  match storeGet s.redis (fwdKey userId) with
  | some _ =>
    let cfg := GuildRoleConfig.load s.redis gid live
    match cfg.get_verified_role with
    | .error _ => (s, .errorNoVerifiedRole)
    | .ok r =>
      ({ s with add_role_calls := s.add_role_calls ++ [(userId, r)] },
       .alreadyVerified)
  | Option.none =>
    let v : PendingVerification := ⟨userId, username, gid, now⟩
    let s1 := { s with pending := insertPending s.pending freshToken v }
    let s2 := { s1 with
      redis := storeSet s1.redis ("verify:" ++ freshToken) (serializePending v) }
    (s2, .linkSent freshToken)

/-- A Discord role of the guild snapshot (`guild.roles`), fetched once
by `to_partial_guild` at `src/state.rs:108` and used for every
membership and name check in the reconciler. -/
structure GuildRole where
  id : Nat
  name : String
deriving DecidableEq, Repr

/-- `SetupRolesSession` from `src/state.rs` (lines 24–28). -/
structure SetupRolesSession where
  mode : String
  custom_roles : List String
deriving DecidableEq, Repr

/-- `SetupRolesSession::validate` (`src/state.rs:44–50`). -/
def SetupRolesSession.validate (s : SetupRolesSession) : Except String Unit :=
  if s.mode == "custom" && s.custom_roles.isEmpty then
    .error "Please select at least one role to create for custom mode."
  else .ok ()

/-- The per-selection mapping of the custom branch of
`get_roles_to_create` (`src/state.rs:71–96`): split on `:`, require
two parts, and map the second part to (display name, key suffix). -/
def parseCustomSelection (s : String) : Option (String × String) :=
  match splitColon s with
  | [_, second] =>
    if second == "undergrad" then some ("Undergrad", "level:Undergrad")
    else if second == "graduate" then some ("Graduate", "level:Graduate")
    else if second == "first-year" then some ("First-Year", "class:First-Year")
    else if second == "sophomore" then some ("Sophomore", "class:Sophomore")
    else if second == "junior" then some ("Junior", "class:Junior")
    else if second == "senior" then some ("Senior", "class:Senior")
    else if second == "fifth-year" then
      some ("Fifth-Year Senior", "class:Fifth-Year Senior")
    else if second == "masters" then some ("Masters", "class:Masters")
    else if second == "doctoral" then some ("Doctoral", "class:Doctoral")
    else Option.none
  | _ => Option.none

/-- `get_roles_to_create` (`src/state.rs:53–99`): the
(display name, role key) pairs implied by the session's mode. -/
def SetupRolesSession.get_roles_to_create (s : SetupRolesSession) :
    List (String × String) :=
  if s.mode == "levels" then
    [("Undergrad", "level:Undergrad"), ("Graduate", "level:Graduate")]
  else if s.mode == "classes" then
    [("First-Year", "class:First-Year"), ("Sophomore", "class:Sophomore"),
     ("Junior", "class:Junior"), ("Senior", "class:Senior"),
     ("Fifth-Year Senior", "class:Fifth-Year Senior"),
     ("Masters", "class:Masters"), ("Doctoral", "class:Doctoral")]
  else if s.mode == "custom" then
    s.custom_roles.filterMap parseCustomSelection
  else []

/-- The key suffixes probed by the custom branch of
`get_current_roles` (`src/state.rs:283–304`). -/
def allPossibleSuffixes : List String :=
  ["level:Undergrad", "level:Graduate", "class:First-Year",
   "class:Sophomore", "class:Junior", "class:Senior",
   "class:Fifth-Year Senior", "class:Masters", "class:Doctoral"]

/-- One probe of `get_current_roles`: read
`guild:<g>:role:<suffix>` and parse it as a role id. -/
def fetchCurrentRole (store : Store) (g : Nat) (suffix : String) :
    Option (String × Nat) :=
  match (storeGet store ("guild:" ++ toString g ++ ":role:" ++ suffix)).bind
      parseNat? with
  | some rid => some (suffix, rid)
  | Option.none => Option.none

/-- `get_current_roles` (`src/state.rs:244–309`): the role-key → id
pairs persisted under the previous mode. -/
def get_current_roles (current_mode : String) (store : Store) (g : Nat) :
    List (String × Nat) :=
  if current_mode == "levels" then
    ["level:Undergrad", "level:Graduate"].filterMap (fetchCurrentRole store g)
  else if current_mode == "classes" then
    ["class:First-Year", "class:Sophomore", "class:Junior", "class:Senior",
     "class:Fifth-Year Senior", "class:Masters",
     "class:Doctoral"].filterMap (fetchCurrentRole store g)
  else if current_mode == "custom" then
    allPossibleSuffixes.filterMap (fetchCurrentRole store g)
  else []

/-- Oracles for the Discord platform calls the reconciler makes:
whether deleting a given role id fails, whether creating a role with a
given name fails, and the first fresh id handed out for successful
creations (successive creations get successive ids). -/
structure Platform where
  delete_fails : Nat → Bool
  create_fails : String → Bool
  next_id : Nat

/-- The delete loop of `save_and_create_roles` (`src/state.rs:153–171`):
for each role to delete, the Discord deletion is attempted only when
the role is still in the guild snapshot, a failed deletion is only
logged (`tracing::warn`, line 158), and the Redis key is deleted
regardless.  Returns the store, the attempted delete calls, and the
failed ones. -/
def runDeletes (guild : List GuildRole) (df : Nat → Bool) (g : Nat) :
    Store → List (String × Nat) → Store × List Nat × List Nat
  | store, [] => (store, [], [])
  | store, (role_key, role_id) :: rest =>
    let inGuild := guild.any (fun r => r.id == role_id)
    let dcalls := if inGuild then [role_id] else []
    let fails := if inGuild && df role_id then [role_id] else []
    let store1 := storeDel store ("guild:" ++ toString g ++ ":role:" ++ role_key)
    let out := runDeletes guild df g store1 rest
    (out.1, dcalls ++ out.2.1, fails ++ out.2.2)

/-- The create loop of `save_and_create_roles` (`src/state.rs:175–203`):
reuse an existing guild role with the same display name, otherwise
create one; the creation call uses `?` (line 189–194), so a failure
aborts with the store as mutated so far and no later item attempted.
Returns (store, next fresh id, key→id pairs, attempted create calls,
error if any). -/
def runCreates (guild : List GuildRole) (cf : String → Bool) (g : Nat) :
    Store → Nat → List (String × String) →
    Store × Nat × List (String × Nat) × List String × Option String
  | store, ctr, [] => (store, ctr, [], [], Option.none)
  | store, ctr, (role_name, role_key) :: rest =>
    match guild.find? (fun r => r.name == role_name) with
    | some existing =>
      let store1 := storeSet store
        ("guild:" ++ toString g ++ ":role:" ++ role_key) (toString existing.id)
      let out := runCreates guild cf g store1 ctr rest
      (out.1, out.2.1, (role_key, existing.id) :: out.2.2.1, out.2.2.2.1,
       out.2.2.2.2)
    | Option.none =>
      if cf role_name then
        (store, ctr, [], [role_name], some ("create failed: " ++ role_name))
      else
        let store1 := storeSet store
          ("guild:" ++ toString g ++ ":role:" ++ role_key) (toString ctr)
        let out := runCreates guild cf g store1 (ctr + 1) rest
        (out.1, out.2.1, (role_key, ctr) :: out.2.2.1,
         role_name :: out.2.2.2.1, out.2.2.2.2)

/-- The kept-roles loop of `save_and_create_roles`
(`src/state.rs:205–234`): a kept role still present in the guild is
passed through; one deleted out-of-band is recreated under the same
key (name looked up in the desired set, `ok_or` at line 216–218), the
recreation using `?` so a failure aborts. -/
def runKeeps (guild : List GuildRole) (cf : String → Bool) (g : Nat)
    (key_to_name : List (String × String)) :
    Store → Nat → List (String × Nat) →
    Store × Nat × List (String × Nat) × List String × Option String
  | store, ctr, [] => (store, ctr, [], [], Option.none)
  | store, ctr, (role_key, role_id) :: rest =>
    if guild.any (fun r => r.id == role_id) then
      let out := runKeeps guild cf g key_to_name store ctr rest
      (out.1, out.2.1, (role_key, role_id) :: out.2.2.1, out.2.2.2.1,
       out.2.2.2.2)
    else
      match (key_to_name.find? (fun q => q.1 == role_key)).map (·.2) with
      | Option.none =>
        (store, ctr, [], [],
         some ("Missing display name for role key: " ++ role_key))
      | some display_name =>
        if cf display_name then
          (store, ctr, [], [display_name],
           some ("create failed: " ++ display_name))
        else
          let store1 := storeSet store
            ("guild:" ++ toString g ++ ":role:" ++ role_key) (toString ctr)
          let out := runKeeps guild cf g key_to_name store1 (ctr + 1) rest
          (out.1, out.2.1, (role_key, ctr) :: out.2.2.1,
           display_name :: out.2.2.2.1, out.2.2.2.2)

/-- Result of a reconciliation run: final store, attempted and failed
Discord delete calls, attempted create calls, and the function's
`Result` (the key→id pairs on success). -/
structure RecResult where
  store : Store
  delete_calls : List Nat
  failed_deletes : List Nat
  create_calls : List String
  result : Except String (List (String × Nat))
deriving DecidableEq, Repr

/-- `save_and_create_roles` (`src/state.rs:102–241`): compute the
current roles under the previously stored mode, diff them against the
desired set, run the delete loop, the create loop and the kept-roles
loop in that order, and finally persist the new mode — the mode write
and the success result are reached only when no create aborted. -/
def save_and_create_roles (sess : SetupRolesSession) (guild : List GuildRole)
    (g : Nat) (store : Store) (p : Platform) : RecResult :=
  let current_mode :=
    (storeGet store ("guild:" ++ toString g ++ ":role_mode")).getD "none"
  let current_roles := get_current_roles current_mode store g
  let desired_roles := sess.get_roles_to_create
  let role_key_to_name := desired_roles.map (fun q => (q.2, q.1))
  let current_keys := current_roles.map (·.1)
  let desired_keys := desired_roles.map (·.2)
  let roles_to_keep :=
    current_roles.filter (fun q => desired_keys.contains q.1)
  let roles_to_delete :=
    current_roles.filter (fun q => !(desired_keys.contains q.1))
  let roles_to_create :=
    desired_roles.filter (fun q => !(current_keys.contains q.2))
  let del := runDeletes guild p.delete_fails g store roles_to_delete
  let cr := runCreates guild p.create_fails g del.1 p.next_id roles_to_create
  match cr.2.2.2.2 with
  | some e => ⟨cr.1, del.2.1, del.2.2, cr.2.2.2.1, .error e⟩
  | Option.none =>
    let kp := runKeeps guild p.create_fails g role_key_to_name cr.1 cr.2.1
      roles_to_keep
    match kp.2.2.2.2 with
    | some e =>
      ⟨kp.1, del.2.1, del.2.2, cr.2.2.2.1 ++ kp.2.2.2.1, .error e⟩
    | Option.none =>
      let store4 := storeSet kp.1
        ("guild:" ++ toString g ++ ":role_mode") sess.mode
      ⟨store4, del.2.1, del.2.2, cr.2.2.2.1 ++ kp.2.2.2.1,
       .ok (cr.2.2.1 ++ kp.2.2.1)⟩

/-- The in-process `setuproles_sessions` table, keyed by
(guild id, operator id) (`src/state.rs:318`). -/
abbrev Sessions := List ((Nat × Nat) × SetupRolesSession)

/-- Outcomes of `handle_save_roles`
(`src/bot/commands/setuproles.rs:402–507`). -/
inductive SaveOutcome where
  | noSession
  | validationFailed (msg : String)
  | reconcileFailed (msg : String)
  | success (roles : List (String × Nat))
deriving DecidableEq, Repr

/-- `handle_save_roles` (`src/bot/commands/setuproles.rs:402–507`):
read the session, validate it, run `save_and_create_roles`; on a
reconciliation error the handler shows the error and returns with the
session still in the table (lines 461–474); only on success is the
session removed (lines 477–481). -/
def handle_save_roles (sessions : Sessions) (gid uid : Nat)
    (guild : List GuildRole) (store : Store) (p : Platform) :
    Sessions × Store × SaveOutcome :=
  match (sessions.find? (fun q => q.1 == (gid, uid))).map (·.2) with
  | Option.none => (sessions, store, .noSession)
  | some sess =>
    match sess.validate with
    | .error msg => (sessions, store, .validationFailed msg)
    | .ok _ =>
      let r := save_and_create_roles sess guild gid store p
      match r.result with
      | .error e => (sessions, r.store, .reconcileFailed e)
      | .ok roles =>
        let sessions1 := sessions.filter (fun q => q.1 != (gid, uid))
        (sessions1, r.store, .success roles)

/-! ### Helper lemmas about the store and the pending map -/

lemma find?_filter_self {α : Type} (l : List (String × α)) (t : String) :
    (l.filter (fun p => p.1 != t)).find? (fun p => p.1 == t) = Option.none := by
  induction l with
  | nil => rfl
  | cons a l ih =>
    by_cases h : a.1 == t
    · simp only [List.filter_cons]
      have h2 : (a.1 != t) = false := by simp [bne, h]
      rw [h2, if_neg (by simp)]
      exact ih
    · simp only [List.filter_cons]
      have h2 : (a.1 != t) = true := by simp [bne]; simpa using h
      rw [h2]
      simp only [if_true]
      rw [List.find?_cons_of_neg _ (by simpa using h)]
      exact ih

lemma find?_filter_of_ne {α : Type} (l : List (String × α)) (k k' : String)
    (h : k' ≠ k) :
    (l.filter (fun p => p.1 != k)).find? (fun p => p.1 == k') =
      l.find? (fun p => p.1 == k') := by
  induction l with
  | nil => rfl
  | cons a l ih =>
    by_cases ha : a.1 == k
    · have h1 : (a.1 != k) = false := by simp [bne, ha]
      have h2 : (a.1 == k') = false := by
        have : a.1 = k := by simpa using ha
        simp [this]
        exact fun e => h e.symm
      simp only [List.filter_cons, h1, if_false]
      rw [List.find?_cons_of_neg _ (by simp [h2])]
      exact ih
    · have h1 : (a.1 != k) = true := by simp [bne]; simpa using ha
      simp only [List.filter_cons, h1, if_true]
      by_cases hk : a.1 == k'
      · rw [List.find?_cons_of_pos _ (by simpa using hk),
            List.find?_cons_of_pos _ (by simpa using hk)]
      · rw [List.find?_cons_of_neg _ (by simpa using hk),
            List.find?_cons_of_neg _ (by simpa using hk)]
        exact ih

lemma find?_append_of_none {α : Type} (p : α → Bool) (l1 l2 : List α)
    (h : l1.find? p = Option.none) : (l1 ++ l2).find? p = l2.find? p := by
  induction l1 with
  | nil => rfl
  | cons a l ih =>
    by_cases ha : p a
    · rw [List.find?_cons_of_pos _ ha] at h; exact absurd h (by simp)
    · rw [List.find?_cons_of_neg _ ha] at h
      rw [List.cons_append, List.find?_cons_of_neg _ ha]
      exact ih h

lemma find?_append_of_some {α : Type} (p : α → Bool) (l1 l2 : List α)
    (a : α) (h : l1.find? p = some a) : (l1 ++ l2).find? p = some a := by
  induction l1 with
  | nil => exact absurd h (by simp)
  | cons b l ih =>
    by_cases hb : p b
    · rw [List.find?_cons_of_pos _ hb] at h
      rw [List.cons_append, List.find?_cons_of_pos _ hb]
      exact h
    · rw [List.find?_cons_of_neg _ hb] at h
      rw [List.cons_append, List.find?_cons_of_neg _ hb]
      exact ih h

lemma storeGet_storeSet_self (s : Store) (k v : String) :
    storeGet (storeSet s k v) k = some v := by
  unfold storeGet storeSet
  rw [find?_append_of_none _ _ _ (find?_filter_self s k)]
  simp [List.find?]

lemma storeGet_storeSet_ne (s : Store) (k v k' : String) (h : k' ≠ k) :
    storeGet (storeSet s k v) k' = storeGet s k' := by
  unfold storeGet storeSet
  by_cases hf : (s.filter (fun p => p.1 != k)).find? (fun p => p.1 == k') =
      Option.none
  · rw [find?_append_of_none _ _ _ hf]
    rw [find?_filter_of_ne s k k' h] at hf
    rw [hf]
    have hkk : (k == k') = false := by
      simp
      exact fun e => h e.symm
    simp [List.find?, hkk]
  · rcases Option.ne_none_iff_exists'.mp hf with ⟨a, ha⟩
    rw [find?_append_of_some _ _ _ _ ha]
    rw [find?_filter_of_ne s k k' h] at ha
    rw [ha]

lemma fwdKey_ne_revKey (d : Nat) (kc : String) : fwdKey d ≠ revKey kc := by
  intro h
  have h2 : (fwdKey d).data = (revKey kc).data := by rw [h]
  simp only [fwdKey, revKey, String.data_append] at h2
  simp at h2

lemma vatKey_ne_revKey (d : Nat) (kc : String) : vatKey d ≠ revKey kc := by
  intro h
  have h2 : (vatKey d).data = (revKey kc).data := by rw [h]
  simp only [vatKey, revKey, String.data_append] at h2
  simp at h2

lemma fwdKey_ne_vatKey (d : Nat) : fwdKey d ≠ vatKey d := by
  intro h
  have h2 : (fwdKey d).data = (vatKey d).data := by rw [h]
  simp only [fwdKey, vatKey, String.data_append] at h2
  have h3 := List.append_cancel_left h2
  simp at h3

lemma revKey_inj (k k' : String) (h : revKey k = revKey k') : k = k' := by
  have h2 : (revKey k).data = (revKey k').data := by rw [h]
  simp only [revKey, String.data_append] at h2
  have h3 := List.append_cancel_right h2
  have h4 := List.append_cancel_left h3
  exact String.ext h4

/-- `lookupPending` after a `consumeToken` of the same token is always
absent: the removal filters every binding for the token out of the
in-process map. -/
lemma lookupPending_consume (s : AppStateM) (t : String) :
    lookupPending (applyOp s (WebOp.consumeToken t)) t = Option.none := by
  unfold lookupPending applyOp
  rw [find?_filter_self]
  rfl

/-- Emitting an event does not change the pending map, so lookups are
unaffected. -/
lemma lookupPending_emit (s : AppStateM) (e : VerificationComplete)
    (t : String) :
    lookupPending (applyOp s (WebOp.emitEvent e)) t = lookupPending s t := by
  rfl

/-! ### C1 — ordering of token consumption and event emission -/

/-- C1 counterexample.  The claim says the pending token is consumed
before or atomically with enqueueing the completion event, so that no
interleaving point exists at which the event has been sent while the
token is still resolvable.  Starting from the state produced by the
`/verify` command for user 7 in guild 1 with token `t1`, the matching
branch of `verify_start` runs the trace emit-then-consume: after its
first effect (the prefix of length 1) the event is already on the
channel while `t1` still resolves, and `verify_start` is exactly this
trace run to the end. -/
theorem verify_linked_interleaving_point_exists :
    let v : PendingVerification := ⟨7, "alice", 1, 0⟩
    let s1 := (verify_handle ⟨[], [], [], [], []⟩ 7 "alice" 1 [] "t1" 0).1
    let mid := applyOps s1 ((linked_branch_trace v "t1" "kcA").take 1)
    mid.events = [mkCompletion v "kcA"]
    ∧ lookupPending mid "t1" = some v
    ∧ verify_start s1 "t1" "kcA" [⟨some "discord", some "7"⟩] =
        (applyOps s1 (linked_branch_trace v "t1" "kcA"), .linkedRedirect) := by
  decide

/-- C1 amended: in both `verify_start`'s already-linked-and-matching
branch and `link_callback`'s matching branch the completion event is
enqueued first and the token is consumed afterwards (emit-then-consume,
the opposite of the claimed order): after the send and before the
removal the event has been sent while the token is still resolvable,
and only the subsequent removal makes the token unresolvable. -/
theorem verify_linked_emits_then_consumes (s : AppStateM) (token kc : String)
    (ids : List FederatedIdentity) (v : PendingVerification)
    (d : FederatedIdentity)
    (hl : lookupPending s token = some v)
    (hf : findDiscordIdentity ids = some d)
    (hm : (d.user_id == some (toString v.discord_user_id)) = true) :
    verify_start s token kc ids =
      (applyOp (applyOp s (WebOp.emitEvent (mkCompletion v kc)))
        (WebOp.consumeToken token), .linkedRedirect)
    ∧ link_callback s (some token) kc ids =
      (applyOp (applyOp s (WebOp.emitEvent (mkCompletion v kc)))
        (WebOp.consumeToken token), .linkedRedirect)
    ∧ (applyOp s (WebOp.emitEvent (mkCompletion v kc))).events =
        s.events ++ [mkCompletion v kc]
    ∧ lookupPending (applyOp s (WebOp.emitEvent (mkCompletion v kc))) token =
        some v
    ∧ lookupPending (applyOp (applyOp s (WebOp.emitEvent (mkCompletion v kc)))
        (WebOp.consumeToken token)) token = Option.none := by
  refine ⟨?_, ?_, rfl, ?_, lookupPending_consume _ _⟩
  · simp only [verify_start, hl, hf, hm, if_true]
    rfl
  · simp only [link_callback, hl, hf, hm, if_true]
    rfl
  · rw [lookupPending_emit]
    exact hl

/-- Witness for the amended C1 theorem at a concrete input. -/
theorem verify_linked_emits_then_consumes_witness :
    verify_start ⟨[], [("t1", ⟨7, "alice", 1, 0⟩)], [], [], []⟩ "t1" "kcA"
      [⟨some "discord", some "7"⟩] =
      (applyOp (applyOp ⟨[], [("t1", ⟨7, "alice", 1, 0⟩)], [], [], []⟩
        (WebOp.emitEvent (mkCompletion ⟨7, "alice", 1, 0⟩ "kcA")))
        (WebOp.consumeToken "t1"), .linkedRedirect) :=
  (verify_linked_emits_then_consumes _ "t1" "kcA" _ ⟨7, "alice", 1, 0⟩
    ⟨some "discord", some "7"⟩ (by decide) (by decide) (by decide)).1

lemma filter_idem {α : Type} (p : α → Bool) (l : List α) :
    (l.filter p).filter p = l.filter p := by
  induction l with
  | nil => rfl
  | cons a l ih =>
    by_cases h : p a
    · simp only [List.filter_cons, h, if_true, ih]
    · simp only [List.filter_cons, h, Bool.false_eq_true, if_false]
      exact ih

/-! ### C3 — what consuming a token actually deletes -/

/-- C3 counterexample.  The claim says consuming a token deletes the
pending verification from both backing stores.  Concretely: the
`/verify` command for user 7 with token `t1` writes both the
in-process entry and the durable key `verify:t1`; the matching branch
of `verify_start` then consumes the token, after which the in-process
lookup is absent — but the durable key `verify:t1` is still present,
untouched by the consume step. -/
theorem consume_leaves_durable_copy :
    let s1 := (verify_handle ⟨[], [], [], [], []⟩ 7 "alice" 1 [] "t1" 0).1
    let s2 := (verify_start s1 "t1" "kcA" [⟨some "discord", some "7"⟩]).1
    storeGet s1.redis "verify:t1" = some (serializePending ⟨7, "alice", 1, 0⟩)
    ∧ lookupPending s2 "t1" = Option.none
    ∧ storeGet s2.redis "verify:t1" =
        some (serializePending ⟨7, "alice", 1, 0⟩) := by
  decide

/-- C3 amended: consuming a token deletes it from the in-process map
only — the durable `verify:<t>` key is left to expire by its own TTL.
After a consume the lookup returns absent, a second consume of the
same token is a no-op (no error, and no event is emitted by either
consume), and the Redis store is untouched. -/
theorem consume_in_process_only_and_idempotent (s : AppStateM) (t : String) :
    lookupPending (consumePending s t) t = Option.none
    ∧ consumePending (consumePending s t) t = consumePending s t
    ∧ (consumePending s t).redis = s.redis
    ∧ (consumePending s t).events = s.events := by
  refine ⟨lookupPending_consume s t, ?_, rfl, rfl⟩
  unfold consumePending applyOp
  simp only [filter_idem]

/-! ### C4 — the 600 s TTL is not enforced on the lookup path -/

/-- C4 failing input: a pending verification created at time 0 and
looked up 601 seconds later — past the 600 s TTL that the `/verify`
command promises ("This link expires in 10 minutes") and sets on the
durable copy with `SETEX 600`.  The lookup path reads only the
in-process map and never compares `created_at` with the current time,
so `verify_status` still reports the entry as pending and
`lookupPending` still resolves it, contradicting the claim that such
an entry is treated as absent. -/
theorem lookup_ignores_elapsed_ttl :
    let v : PendingVerification := ⟨7, "alice", 1, 0⟩
    let s : AppStateM := ⟨[], [("t1", v)], [], [], []⟩
    v.created_at + 600 < 601
    ∧ verify_status s "t1" = ("pending", some "alice")
    ∧ lookupPending s "t1" = some v := by
  decide

/-! ### C8 — AlreadyLinkedElsewhere is mutation-free -/

/-- C8: when the authenticated SSO account's federated Discord
identity differs from the requester in the pending record,
`verify_start` returns the `AlreadyLinkedElsewhere` outcome with the
state completely unchanged: no completion event is emitted, no
federated identity is unlinked, and the token still resolves to the
same pending verification afterwards. -/
theorem already_linked_elsewhere_no_mutation (s : AppStateM)
    (token kc : String) (ids : List FederatedIdentity)
    (v : PendingVerification) (d : FederatedIdentity)
    (hl : lookupPending s token = some v)
    (hf : findDiscordIdentity ids = some d)
    (hm : (d.user_id == some (toString v.discord_user_id)) = false) :
    verify_start s token kc ids = (s, .alreadyLinkedElsewhere)
    ∧ (verify_start s token kc ids).1.events = s.events
    ∧ (verify_start s token kc ids).1.unlink_calls = s.unlink_calls
    ∧ lookupPending (verify_start s token kc ids).1 token = some v := by
  have h1 : verify_start s token kc ids = (s, .alreadyLinkedElsewhere) := by
    simp only [verify_start, hl, hf, hm]
    rfl
  refine ⟨h1, by rw [h1], by rw [h1], ?_⟩
  rw [h1]
  exact hl

/-- Witness for C8 at a concrete input: token `t1` pending for Discord
user 7, SSO account federated to Discord user 8. -/
theorem already_linked_elsewhere_no_mutation_witness :
    verify_start ⟨[], [("t1", ⟨7, "alice", 1, 0⟩)], [], [], []⟩ "t1" "kcA"
      [⟨some "discord", some "8"⟩] =
      (⟨[], [("t1", ⟨7, "alice", 1, 0⟩)], [], [], []⟩,
       .alreadyLinkedElsewhere) :=
  (already_linked_elsewhere_no_mutation _ "t1" "kcA" _ ⟨7, "alice", 1, 0⟩
    ⟨some "discord", some "8"⟩ (by decide) (by decide) (by decide)).1

/-! ### C2 — persisting an identity link never checks for conflicts -/

/-- C2 counterexample.  The claim says persisting a link for a Discord
user id already bound to a different SSO user id yields an
`IdentityConflict` error and leaves the stored mappings unchanged.
Concretely: with `discord:1:keycloak` already bound to `kcA`,
`complete_verification` for the pair (1, `kcB`) returns `Ok` — no
conflict error exists anywhere in the code — and overwrites the
forward mapping and the timestamp. -/
theorem persist_link_overwrites_on_conflict :
    let st := persistLink [] 1 "kcA" 10
    let r := complete_verification ⟨some 11, RoleMode.none, [], [], Option.none⟩
      [] st ⟨false, false, false, false, false, false, false⟩ 1 "kcB" 20
    storeGet st (fwdKey 1) = some "kcA"
    ∧ r.result = .ok ()
    ∧ storeGet r.store (fwdKey 1) = some "kcB"
    ∧ storeGet r.store (vatKey 1) = some "20" := by
  decide

/-- C2 amended: `complete_verification` persists the identity mapping
with three unconditional `SET`s and performs no conflict check at all.
Persisting the same (Discord id, SSO id) pair twice leaves the two
identity-mapping keys at the same values (only the `verified_at`
timestamp is overwritten); persisting a pair whose Discord id is
already bound to a different SSO id raises no error: it silently
overwrites `discord:<id>:keycloak` and adds a second reverse mapping
`keycloak:<new id>:discord`, while the stale reverse mapping of the
old SSO id stays in the store. -/
theorem persist_link_unconditional (store : Store) (d : Nat) (k k' : String)
    (t1 t2 : Int) (hne : k ≠ k') :
    (storeGet (persistLink (persistLink store d k t1) d k t2) (fwdKey d) =
        some k
      ∧ storeGet (persistLink (persistLink store d k t1) d k t2) (revKey k) =
        some (toString d)
      ∧ storeGet (persistLink store d k t1) (fwdKey d) = some k
      ∧ storeGet (persistLink store d k t1) (revKey k) = some (toString d))
    ∧ (storeGet (persistLink (persistLink store d k t1) d k' t2) (fwdKey d) =
        some k'
      ∧ storeGet (persistLink (persistLink store d k t1) d k' t2) (revKey k') =
        some (toString d)
      ∧ storeGet (persistLink (persistLink store d k t1) d k' t2) (revKey k) =
        some (toString d)) := by
  have hfwd : ∀ (s : Store) (kc : String) (ts : Int),
      storeGet (persistLink s d kc ts) (fwdKey d) = some kc := by
    intro s kc ts
    unfold persistLink
    rw [storeGet_storeSet_ne _ _ _ _ (fwdKey_ne_revKey d kc),
        storeGet_storeSet_self]
  have hrev : ∀ (s : Store) (kc : String) (ts : Int),
      storeGet (persistLink s d kc ts) (revKey kc) = some (toString d) := by
    intro s kc ts
    unfold persistLink
    rw [storeGet_storeSet_self]
  have hrev_other : ∀ (s : Store) (kc kc' : String) (ts : Int), kc' ≠ kc →
      storeGet (persistLink s d kc ts) (revKey kc') =
        storeGet s (revKey kc') := by
    intro s kc kc' ts hkk
    unfold persistLink
    rw [storeGet_storeSet_ne _ _ _ _ (fun e => hkk (revKey_inj _ _ e)),
        storeGet_storeSet_ne _ _ _ _ (fun e => fwdKey_ne_revKey d kc' e.symm),
        storeGet_storeSet_ne _ _ _ _ (fun e => vatKey_ne_revKey d kc' e.symm)]
  exact ⟨⟨hfwd _ k t2, hrev _ k t2, hfwd _ k t1, hrev _ k t1⟩,
    ⟨hfwd _ k' t2, hrev _ k' t2,
     by rw [hrev_other _ k' k t2 hne]; exact hrev _ k t1⟩⟩

/-- Witness for the amended C2 theorem at Discord id 1, SSO ids
`kcA` and `kcB`. -/
theorem persist_link_unconditional_witness :
    storeGet (persistLink (persistLink [] 1 "kcA" 10) 1 "kcB" 20) (fwdKey 1) =
      some "kcB" :=
  (persist_link_unconditional [] 1 "kcA" "kcB" 10 20 (by decide)).2.1

/-! ### C7 — which notifications are fire-and-forget -/

/-- C7 counterexample.  The claim says both the log-channel message
and the direct message are fire-and-forget.  Concretely: with the
verified role configured, role assignment and mapping persistence
succeeding, and the log-channel send also failing harmlessly, a
failing direct message makes `complete_verification` return an error
— the DM send uses `?` in the source — even though the completion was
otherwise fully processed. -/
theorem dm_failure_escalates :
    let r := complete_verification ⟨some 11, RoleMode.none, [], [], some 9⟩
      [] [] ⟨false, false, false, false, false, true, true⟩ 7 "kcA" 5
    r.result = .error "dm"
    ∧ r.added_roles = [11]
    ∧ storeGet r.store (fwdKey 7) = some "kcA" := by
  decide

/-- C7 amended: the log-channel notification is fire-and-forget — for
any value of the log-send oracle the function still succeeds when the
direct message succeeds — but the direct message is not: its failure
propagates as an error return from `complete_verification`.  In both
cases the identity mappings have already been persisted before the
notification step. -/
theorem log_channel_fire_and_forget (cfg : CVConfig)
    (attrs : List (String × List String)) (store : Store) (o : CVOracles)
    (d : Nat) (kc : String) (ts : Int) (vr : Nat)
    (h1 : o.member_fetch_fails = false)
    (h2 : cfg.verified_role = some vr)
    (h3 : o.add_verified_fails = false)
    (h4 : o.get_user_fails = false) :
    (complete_verification cfg attrs store o d kc ts).store =
      persistLink store d kc ts
    ∧ (o.dm_fails = false →
        (complete_verification cfg attrs store o d kc ts).result = .ok ())
    ∧ (o.dm_fails = true →
        (complete_verification cfg attrs store o d kc ts).result =
          .error "dm") := by
  simp only [complete_verification, h1, h2, h3, h4, Bool.false_eq_true,
    if_false]
  cases hdm : o.dm_fails <;> simp

/-- Witness for the amended C7 theorem at a concrete input with a
failing log-channel send and a succeeding direct message. -/
theorem log_channel_fire_and_forget_witness :
    (complete_verification ⟨some 11, RoleMode.none, [], [], some 9⟩ [] []
      ⟨false, false, false, false, false, true, false⟩ 7 "kcA" 5).result =
      .ok () :=
  (log_channel_fire_and_forget ⟨some 11, RoleMode.none, [], [], some 9⟩ [] []
    ⟨false, false, false, false, false, true, false⟩ 7 "kcA" 5 11 rfl rfl rfl
    rfl).2.1 rfl

/-! ### C9 — which configured role ids are existence-checked on load -/

lemma loadRoleList_all_live (store : Store) (g : Nat) (live : List Nat)
    (cat : String) (names : List String) :
    (loadRoleList store g live cat names).all
      (fun p => live.contains p.2) = true := by
  induction names with
  | nil => rfl
  | cons n ns ih =>
    unfold loadRoleList
    unfold loadRoleList at ih
    simp only [List.filterMap_cons]
    cases h : (storeGet store
        ("guild:" ++ toString g ++ ":role:" ++ cat ++ ":" ++ n)).bind
        parseNat? with
    | none => exact ih
    | some rid =>
      by_cases hc : live.contains rid
      · simp only [hc, if_true, List.all_cons, ih, Bool.and_true]
      · simp only [hc, Bool.false_eq_true, if_false]
        exact ih

/-- C9 counterexample.  The claim says every configured role id — the
verified role and each level and class role — is confirmed against
the live role list, stale ids being dropped.  Concretely, with an
empty live role list: a stale level role id is indeed dropped, but a
stale verified role id `5` is still surfaced by
`GuildRoleConfig.load`. -/
theorem load_does_not_check_verified_role :
    (GuildRoleConfig.load [("guild:1:role:verified", "5")] 1 []).verified_role =
      some 5
    ∧ (GuildRoleConfig.load [("guild:1:role:level:Undergrad", "5")] 1
        []).level_roles = []
    ∧ (GuildRoleConfig.load [("guild:1:role:level:Undergrad", "5")] 1
        [5]).level_roles = [("Undergrad", 5)] := by
  decide

/-- C9 amended: `GuildRoleConfig.load` reads the mode and role keys
from the store and existence-checks the level and class role ids
against the live role list, dropping stale ones — but the verified
role id is parsed and returned without any existence check.  The
store itself is only read (the load function takes the store as an
input and returns a configuration, never a modified store). -/
theorem load_checks_level_class_only (store : Store) (g : Nat)
    (live : List Nat) :
    (GuildRoleConfig.load store g live).level_roles.all
      (fun p => live.contains p.2) = true
    ∧ (GuildRoleConfig.load store g live).class_roles.all
      (fun p => live.contains p.2) = true
    ∧ (GuildRoleConfig.load store g live).verified_role =
        (storeGet store ("guild:" ++ toString g ++ ":role:verified")).bind
          parseNat?
    ∧ (GuildRoleConfig.load store g live).mode = RoleMode.from_str
        ((storeGet store ("guild:" ++ toString g ++ ":role_mode")).getD
          "none") :=
  ⟨loadRoleList_all_live store g live "level" levelNames,
   loadRoleList_all_live store g live "class" classNames, rfl, rfl⟩

/-! ### C10 — /verify short-circuits for already-verified users -/

/-- C10: when `discord:<id>:keycloak` is already present, the
`/verify` command assigns only the configured verified role in the
invoking guild and returns: the resulting state differs from the
initial one exactly by the single `add_role` call, so no verification
token is generated, no pending-verification record is written to
either store, and no level or class role is assigned. -/
theorem verify_short_circuits_when_already_verified (s : AppStateM)
    (userId : Nat) (username : String) (gid : Nat) (live : List Nat)
    (tok : String) (now : Int) (kc : String) (r : Nat)
    (hk : storeGet s.redis (fwdKey userId) = some kc)
    (hr : (GuildRoleConfig.load s.redis gid live).get_verified_role = .ok r) :
    verify_handle s userId username gid live tok now =
      ({ s with add_role_calls := s.add_role_calls ++ [(userId, r)] },
       .alreadyVerified)
    ∧ (verify_handle s userId username gid live tok now).1.redis = s.redis
    ∧ (verify_handle s userId username gid live tok now).1.pending =
        s.pending := by
  have h1 : verify_handle s userId username gid live tok now =
      ({ s with add_role_calls := s.add_role_calls ++ [(userId, r)] },
       .alreadyVerified) := by
    simp only [verify_handle, hk, hr]
  exact ⟨h1, by rw [h1], by rw [h1]⟩

/-- Witness for C10: user 7 already mapped to `kcA`, guild 1 with
verified role 11 configured. -/
theorem verify_short_circuits_when_already_verified_witness :
    verify_handle
      ⟨[("discord:7:keycloak", "kcA"), ("guild:1:role:verified", "11")],
       [], [], [], []⟩ 7 "alice" 1 [] "t9" 0 =
      (⟨[("discord:7:keycloak", "kcA"), ("guild:1:role:verified", "11")],
        [], [], [], [(7, 11)]⟩, .alreadyVerified) :=
  (verify_short_circuits_when_already_verified
    ⟨[("discord:7:keycloak", "kcA"), ("guild:1:role:verified", "11")],
     [], [], [], []⟩ 7 "alice" 1 [] "t9" 0 "kcA" 11 (by decide)
    (by decide)).1

/-! ### C5 — which reconciler errors are caught per item -/

/-- The delete loop's store mutations and attempted Discord calls do
not depend on whether the delete calls fail: a failed delete is only
logged, and the Redis key is removed regardless. -/
lemma runDeletes_indep (guild : List GuildRole) (d1 d2 : Nat → Bool)
    (g : Nat) :
    ∀ (l : List (String × Nat)) (store : Store),
      (runDeletes guild d1 g store l).1 = (runDeletes guild d2 g store l).1
      ∧ (runDeletes guild d1 g store l).2.1 =
        (runDeletes guild d2 g store l).2.1 := by
  intro l
  induction l with
  | nil => intro store; exact ⟨rfl, rfl⟩
  | cons a rest ih =>
    intro store
    obtain ⟨rk, rid⟩ := a
    obtain ⟨h1, h2⟩ :=
      ih (storeDel store ("guild:" ++ toString g ++ ":role:" ++ rk))
    simp only [runDeletes]
    exact ⟨h1, by rw [h2]⟩

/-- C5 counterexample.  The claim says an error from any single
per-role platform operation — create or delete — is caught for that
item and the remaining items still execute.  Concretely: switching
from no mode to levels with the creation of "Undergrad" failing, the
whole run returns an error, the "Graduate" create is never attempted,
its Redis key is never written, and the mode is never persisted. -/
theorem failing_create_aborts_reconciliation :
    let r := save_and_create_roles ⟨"levels", []⟩ [] 1 []
      ⟨fun _ => false, fun n => n == "Undergrad", 100⟩
    r.result = .error "create failed: Undergrad"
    ∧ r.create_calls = ["Undergrad"]
    ∧ storeGet r.store "guild:1:role:level:Graduate" = Option.none
    ∧ storeGet r.store "guild:1:role_mode" = Option.none := by
  decide

/-- C5 amended: only role-delete errors are caught per item — the
outcome of `save_and_create_roles` (store, result, attempted delete
and create calls) is entirely independent of the delete-failure
oracle, so failed deletes never abort the run — while a role-create
error aborts: when the first pending creation fails, `runCreates`
stops with an error, attempts no later create, and performs no later
store write. -/
theorem reconciler_delete_errors_caught :
    (∀ (sess : SetupRolesSession) (guild : List GuildRole) (g : Nat)
      (store : Store) (cf : String → Bool) (nid : Nat) (d1 d2 : Nat → Bool),
      (save_and_create_roles sess guild g store ⟨d1, cf, nid⟩).store =
        (save_and_create_roles sess guild g store ⟨d2, cf, nid⟩).store
      ∧ (save_and_create_roles sess guild g store ⟨d1, cf, nid⟩).result =
        (save_and_create_roles sess guild g store ⟨d2, cf, nid⟩).result
      ∧ (save_and_create_roles sess guild g store ⟨d1, cf, nid⟩).delete_calls =
        (save_and_create_roles sess guild g store ⟨d2, cf, nid⟩).delete_calls
      ∧ (save_and_create_roles sess guild g store ⟨d1, cf, nid⟩).create_calls =
        (save_and_create_roles sess guild g store ⟨d2, cf, nid⟩).create_calls)
    ∧ (∀ (guild : List GuildRole) (cf : String → Bool) (g : Nat)
      (store : Store) (ctr : Nat) (n k : String)
      (rest : List (String × String)),
      guild.find? (fun r => r.name == n) = Option.none → cf n = true →
      runCreates guild cf g store ctr ((n, k) :: rest) =
        (store, ctr, [], [n], some ("create failed: " ++ n))) := by
  constructor
  · intro sess guild g store cf nid d1 d2
    obtain ⟨h1, h2⟩ := runDeletes_indep guild d1 d2 g
      (get_current_roles
        ((storeGet store ("guild:" ++ toString g ++ ":role_mode")).getD "none")
        store g |>.filter
        (fun q => !((sess.get_roles_to_create.map (·.2)).contains q.1)))
      store
    simp only [save_and_create_roles]
    rw [h1, h2]
    refine ⟨?_, ?_, ?_, ?_⟩ <;> (split <;> try split) <;> rfl
  · intro guild cf g store ctr n k rest hfind hcf
    simp only [runCreates, hfind, hcf, if_true]

/-- Witness for the amended C5 theorem: the aborting-create half at a
concrete input (no guild roles, creation of "Undergrad" failing). -/
theorem reconciler_delete_errors_caught_witness :
    runCreates [] (fun n => n == "Undergrad") 1 [] 100
      [("Undergrad", "level:Undergrad"), ("Graduate", "level:Graduate")] =
      ([], 100, [], ["Undergrad"], some "create failed: Undergrad") :=
  reconciler_delete_errors_caught.2 [] (fun n => n == "Undergrad") 1 [] 100
    "Undergrad" "level:Undergrad" [("Graduate", "level:Graduate")]
    (by decide) (by decide)

/-! ### C6 — when the setup session is deleted -/

/-- C6 counterexample.  The claim says the session entry is deleted
regardless of whether the reconciliation succeeds or fails.
Concretely: a valid levels session whose reconciliation fails (the
"Undergrad" create fails) leaves the session table unchanged — the
entry is still there and could be resumed. -/
theorem failed_commit_keeps_session :
    let sessions : Sessions := [((1, 2), ⟨"levels", []⟩)]
    let r := handle_save_roles sessions 1 2 [] []
      ⟨fun _ => false, fun n => n == "Undergrad", 100⟩
    r.2.2 = .reconcileFailed "create failed: Undergrad"
    ∧ r.1 = sessions := by
  decide

/-- C6 amended: the session entry is deleted only when the
reconciliation succeeds; on a reconciliation error the handler
returns with the session table unchanged (and a validation failure or
missing session also leaves the table unchanged). -/
theorem session_deleted_only_on_success (sessions : Sessions)
    (gid uid : Nat) (guild : List GuildRole) (store : Store) (p : Platform) :
    (∀ roles,
      (handle_save_roles sessions gid uid guild store p).2.2 =
        .success roles →
      (handle_save_roles sessions gid uid guild store p).1 =
        sessions.filter (fun q => q.1 != (gid, uid)))
    ∧ (∀ e,
      (handle_save_roles sessions gid uid guild store p).2.2 =
        .reconcileFailed e →
      (handle_save_roles sessions gid uid guild store p).1 = sessions) := by
  unfold handle_save_roles
  cases hf : (sessions.find? (fun q => q.1 == (gid, uid))).map (·.2) with
  | none => simp [hf]
  | some sess =>
    simp only [hf]
    cases hv : sess.validate with
    | error m => simp [hv]
    | ok u =>
      simp only [hv]
      cases hr : (save_and_create_roles sess guild gid store p).result with
      | error e2 => simp [hr]
      | ok roles2 => simp [hr]

/-- Witness for the amended C6 theorem: a successful levels commit
removes the session; the same session with a failing create is kept. -/
theorem session_deleted_only_on_success_witness :
    (handle_save_roles [((1, 2), ⟨"levels", []⟩)] 1 2 [] []
      ⟨fun _ => false, fun _ => false, 100⟩).1 =
      ([((1, 2), ⟨"levels", []⟩)] : Sessions).filter
        (fun q => q.1 != (1, 2)) :=
  (session_deleted_only_on_success [((1, 2), ⟨"levels", []⟩)] 1 2 [] []
    ⟨fun _ => false, fun _ => false, 100⟩).1
    [("level:Undergrad", 100), ("level:Graduate", 101)] (by decide)

end DiscordVerify
